import Mathlib

/-!
Verification development for the LogIA evaluation subsystem.

The Python source is shallowly embedded in Lean:
  * Python dicts become association lists (`Dict α`), with insertion-ordered
    keys as Python guarantees; `dget` is `dict.get`, `dinsert` is
    `d[k] = v` (update in place, append when the key is fresh).
  * `GroundTruthEvaluator.evaluate_model_response` and
    `GroundTruthEvaluator.evaluate_all_models` (src/evaluator_human.py)
    become `evaluate_model_response` / `evaluate_all_models`.
  * `load_responses_from_directory` and `load_ground_truth`
    (evaluate_models.py) are embedded over an explicit directory listing /
    file-system mapping, since the embedding cannot perform I/O.
  * `Dataset.generate_prompt` (src/dataset.py) is embedded with the JSON
    serializer `json.dumps(-, indent=2)` abstracted as a parameter: the
    prompt-construction claims depend only on the structure of the prompt,
    never on the byte-level serialization of a log record.
  * Python `float` scores are modelled by rationals; `round(x, 2)` becomes
    `round2`, rounding to the nearest multiple of 1/100 with ties to even,
    which is the decimal-rounding behaviour Python documents for `round`.
    The evaluator computes the rounded score by exact integer arithmetic
    (`round_frac`), proved equal to the textbook formula `round2` by
    `score_formula_aux` below.
  * Python `str.strip` / `str.lower` become `str_strip` / `str_lower`,
    written over the character list of the string (they agree with Python
    on the ASCII data these claims are about).
-/

namespace LogIA

/-- A Python dict, as an insertion-ordered association list with string keys. -/
abbrev Dict (α : Type) := List (String × α)

/-- Python `d.get(k)`: the value bound to `k`, if any (first binding wins,
matching a real dict where keys are unique). -/
def dget {α : Type} (k : String) : Dict α → Option α
  | [] => none
  | p :: rest => if p.1 = k then some p.2 else dget k rest

/-- Python `d.get(k, dflt)`. -/
def dgetD {α : Type} (k : String) (d : Dict α) (dflt : α) : α :=
  (dget k d).getD dflt

/-- Python `d[k] = v`: overwrite in place when `k` is present (keeping its
position, as dicts do), append otherwise. -/
def dinsert {α : Type} (k : String) (v : α) : Dict α → Dict α
  | [] => [(k, v)]
  | p :: rest => if p.1 = k then (k, v) :: rest else p :: dinsert k v rest

/-- Python `s.strip()`: drop leading and trailing whitespace. -/
def str_strip (s : String) : String :=
  ⟨((s.data.dropWhile Char.isWhitespace).reverse.dropWhile Char.isWhitespace).reverse⟩

/-- Python `s.lower()`. -/
def str_lower (s : String) : String :=
  ⟨s.data.map Char.toLower⟩

/-- Round a rational to the nearest integer, ties to even — the rounding
Python's `round` applies to the digit string of a float. -/
def round_half_even (q : ℚ) : ℤ :=
  if q - ⌊q⌋ < 1/2 then ⌊q⌋
  else if 1/2 < q - ⌊q⌋ then ⌊q⌋ + 1
  else if ⌊q⌋ % 2 = 0 then ⌊q⌋ else ⌊q⌋ + 1

/-- Python `round(q, 2)` on the rational model of a float. -/
def round2 (q : ℚ) : ℚ :=
  (round_half_even (q * 100) : ℚ) / 100

/-- `round_half_even` of the fraction `a / b` (for `b > 0`), by exact
integer arithmetic: `a / b` and `a % b` are Lean's Euclidean quotient and
remainder, which for a positive divisor are floor division and a remainder
in `[0, b)`. Kept executable so that concrete evaluations reduce in the
kernel; `round_frac_eq` proves it equal to `round_half_even`. -/
def round_frac (a : ℤ) (b : ℕ) : ℤ :=
  if 2 * (a % (b : ℤ)) < (b : ℤ) then a / (b : ℤ)
  else if (b : ℤ) < 2 * (a % (b : ℤ)) then a / (b : ℤ) + 1
  else if a / (b : ℤ) % 2 = 0 then a / (b : ℤ) else a / (b : ℤ) + 1

/-- One parsed per-model answer document, as `evaluate_model_response`
reads it: every field is accessed with `.get`, so each is optional. -/
structure ModelData where
  model : Option String
  topic : Option String
  questions_answers : Option (Dict String)
  file : Option String
deriving DecidableEq, Repr

/-- The dict returned by `GroundTruthEvaluator.evaluate_model_response`. -/
structure EvalResult where
  topic : Option String
  file : Option String
  score : ℚ
  correct : ℕ
  total : ℕ
  details : Dict String
deriving DecidableEq, Repr

/-- The f-string rendered for a correct answer (evaluator_human.py line 61). -/
def correct_detail (expected_answer model_answer : String) : String :=
  "✅ Correct\n    Expected: " ++ expected_answer ++ "\n    Model: " ++ model_answer

/-- The f-string rendered for an incorrect answer (evaluator_human.py line 67). -/
def incorrect_detail (expected_answer model_answer : String) : String :=
  "❌ Incorrect\n    Expected: " ++ expected_answer ++ "\n    Model: " ++ model_answer

/-- `self.ground_truth.get(topic, {})` where `topic` is
`model_data.get("topic")`: a missing topic field can never be a key of a
JSON-parsed dict, so it selects the default `{}`. -/
def expected_for (ground_truth : Dict (Dict String)) : Option String → Dict String
  | none => []
  | some t => dgetD t ground_truth []

/-- One iteration of the comparison loop of `evaluate_model_response`
(evaluator_human.py lines 55-68): fetch the model answer with default `""`,
strip it, compare case-insensitively, record the verdict and bump the count. -/
def eval_step (model_answers : Dict String) (acc : ℕ × Dict String)
    (qa : String × String) : ℕ × Dict String :=
  let model_answer := str_strip (dgetD qa.1 model_answers "")
  if str_lower model_answer == str_lower qa.2 then
    (acc.1 + 1, dinsert qa.1 (correct_detail qa.2 model_answer) acc.2)
  else
    (acc.1, dinsert qa.1 (incorrect_detail qa.2 model_answer) acc.2)

/-- `GroundTruthEvaluator.evaluate_model_response` (evaluator_human.py
lines 28-80).  The score is
`round((correct / total) * 10, 2) if total > 0 else 0`; here
`(correct / total) * 10` is the exact rational `(correct * 1000) / total`
presented with denominator 100 after rounding, and `score_formula_aux` proves
the result equal to the textbook formula `round2 (correct / total * 10)`. -/
def evaluate_model_response (ground_truth : Dict (Dict String))
    (model_data : ModelData) : EvalResult :=
  let topic := model_data.topic
  let model_answers := model_data.questions_answers.getD []
  let expected_answers := expected_for ground_truth topic
  let total := expected_answers.length
  let cd := expected_answers.foldl (eval_step model_answers) (0, [])
  let score := if total > 0 then Rat.divInt (round_frac ((cd.1 : ℤ) * 1000) total) 100 else 0
  { topic := topic, file := model_data.file, score := score,
    correct := cd.1, total := total, details := cd.2 }

/-- `GroundTruthEvaluator.evaluate_all_models` (evaluator_human.py
lines 83-96): one result per model, in dict iteration order. -/
def evaluate_all_models (answers : Dict ModelData)
    (ground_truth : Dict (Dict String)) : Dict EvalResult :=
  answers.foldl
    (fun results p => dinsert p.1 (evaluate_model_response ground_truth p.2) results)
    []

/-- The boolean comparison the loop applies to one `(question, expected)`
pair: fetch with default `""`, strip, case-fold, exact equality. -/
def answers_match (model_answers : Dict String) (qa : String × String) : Bool :=
  str_lower (str_strip (dgetD qa.1 model_answers "")) == str_lower qa.2

/-- The detail string the loop records for one `(question, expected)` pair. -/
def detail_str (model_answers : Dict String) (qa : String × String) : String :=
  if answers_match model_answers qa then
    correct_detail qa.2 (str_strip (dgetD qa.1 model_answers ""))
  else
    incorrect_detail qa.2 (str_strip (dgetD qa.1 model_answers ""))

/-- Python `s.endswith(suffix)`: the last `len(suffix)` characters equal
`suffix` (`Nat` subtraction makes a too-long suffix compare the whole
string, which is then unequal, as in Python). -/
def ends_with (s suffix : String) : Bool :=
  s.data.drop (s.data.length - suffix.data.length) == suffix.data

/-- Python `sub in s` on strings: `sub` occurs contiguously in `s`. -/
def list_infix (sub : List Char) : List Char → Bool
  | [] => sub.isEmpty
  | c :: rest => sub.isPrefixOf (c :: rest) || list_infix sub rest

/-- Python `sub in s` for strings. -/
def contains_sub (s sub : String) : Bool :=
  list_infix sub.data s.data

/-- One per-model answer document as `load_responses_from_directory` sees
it after `json.load`: the `model` field, if present, and the rest of the
document, opaque to the loader and carried through unchanged. -/
structure RawContent where
  model : Option String
  body : String
deriving DecidableEq, Repr

/-- One entry of the flat directory listing `os.listdir` returns: the file
name, and `some content` when `json.load` succeeds on it, `none` when
parsing raises (the `except` branch logs and skips). -/
structure DirEntry where
  name : String
  parsed : Option RawContent
deriving DecidableEq, Repr

/-- The body of the loading loop of `load_responses_from_directory`
(evaluate_models.py lines 38-49): skip files without the `.json`
extension, skip files whose parse failed, store under `content["model"]`
when that field is present and truthy (Python `if model:` rejects both a
missing field and an empty string). -/
def load_step (responses : Dict RawContent) (fe : DirEntry) : Dict RawContent :=
  if ends_with fe.name ".json" then
    match fe.parsed with
    | none => responses
    | some content =>
      match content.model with
      | none => responses
      | some m => if m = "" then responses else dinsert m content responses
  else responses

/-- `load_responses_from_directory` (evaluate_models.py lines 27-50), over
an explicit flat directory listing. -/
def load_responses_from_directory (files : List DirEntry) : Dict RawContent :=
  files.foldl load_step []

/-- `True` of the directory entries that contribute a binding for model
`m`: recognized extension, successful parse, and `model` field equal
to `m`. -/
def keeps (fe : DirEntry) (m : String) : Bool :=
  ends_with fe.name ".json" &&
    (match fe.parsed with
     | some content => content.model == some m
     | none => false)

/-- The last element of a list satisfying `p`, if any. -/
def find_last {α : Type} (p : α → Bool) : List α → Option α
  | [] => none
  | a :: rest =>
    match find_last p rest with
    | some b => some b
    | none => if p a then some a else none

/-- `next((m for m in responses_dict if "gpt4" in m.lower()), None)`
(evaluate_models.py line 140): the first key whose lowercased form
contains the marker. -/
def find_reference_model (models : List String) : Option String :=
  models.find? (fun m => contains_sub (str_lower m) "gpt4")

/-- The reference-judge branch of `main` (evaluate_models.py lines
138-146): select the reference model, raising when none matches, before
any judge evaluation runs.  The judge evaluation itself
(`Evaluator.evaluate_models_with_openai`, a network-calling component) is
abstracted as the function argument `judge`; the embedded branch shows it
is only ever applied after a reference was found. -/
def reference_eval_mode {α : Type} (judge : String → Dict ModelData → α)
    (responses : Dict ModelData) : Except String α :=
  match find_reference_model (responses.map Prod.fst) with
  | none => Except.error "❌ No GPT-4 reference response found."
  | some ref => Except.ok (judge ref responses)

/-- One log record, with the fixed fields of the one-shot example in
src/dataset.py; opaque to prompt construction, which only serializes it. -/
structure LogRecord where
  timestamp : ℤ
  agent_name : String
  rule_level : ℤ
  rule_id : ℤ
  rule_description : String
  recuento : ℤ
deriving DecidableEq, Repr

/-- One `ONE_SHOT_EXAMPLES` entry: a literal log sample and its expected
formatted answer. -/
structure OneShot where
  logs : List LogRecord
  answer : String
deriving DecidableEq, Repr

/-- The `QUESTIONS` table of src/dataset.py, verbatim. -/
def QUESTIONS : Dict (List String) :=
  [("Topic 1 - Basic Events",
    ["How many events are in the log file summing the count field?",
     "How many different agents appear and what are their names?",
     "Which type of event is the most critical according to its level?",
     "Which event is repeated the most times?"]),
   ("Topic 2 - Content Summary",
    ["Summarize in one line what is happening in the system."]),
   ("Topic 3 - Patterns, Errors or Anomalies",
    ["Do you detect any anomalous behavior in these logs?",
     "Are there failed access attempts? Which alert indicates this?",
     "Are there problematic files? Which ones?"]),
   ("Topic 4 - Conclusions",
    ["What could be causing the observed errors?",
     "Suggest possible solutions for the detected errors.",
     "Are there signs of any type of attack? Which one(s)?",
     "What would be your general diagnosis of the system state according to these logs?"]),
   ("Topic 5 - Multiple Choice Questions",
    ["What type of attack is detected in multiple log entries?\nA) Port scan\nB) Denial of Service (DoS)\nC) SSH brute force\nD) SQL injection\nE) None of the above",
     "Which file was identified with multiple malicious YARA rules?\nA) /etc/passwd\nB) /home/mirai\nC) /var/log/auth.log\nD) /home/unknown\nE) None of the above",
     "What is the highest severity level of the events detected by YARA rules?\nA) 3\nB) 12\nC) 7\nD) 10\nE) None of the above",
     "What is the most critical event related to sshd?\nA) Successful password change\nB) Authorized root access\nC) Failed brute-force authentication\nD) Session closed\nE) None of the above",
     "Which agent is logging all the events?\nA) agent-centos\nB) agent-debian\nC) agent-ubuntu\nD) agent-fedora\nE) None of the above",
     "What type of files were detected as malicious by YARA rules?\nA) .docx files\nB) .conf files\nC) Suspicious files in /home/\nD) System executable files\nE) None of the above"])]

/-- The `RESPONSE_STYLES` table of src/dataset.py, verbatim. -/
def RESPONSE_STYLES : Dict String :=
  [("Topic 1 - Basic Events",
    "Answer briefly and directly. Use the following format exclusively without adding extra:\nThere are X events.\nThere are Y agents: name1, name2...\nThe most critical event is DESCRIPTION with level N.\nThe most repeated event is DESCRIPTION, N times.\n\n"),
   ("Topic 2 - Content Summary",
    "Answer in one sentence as precisely as possible, without introduction or extra text.\n\n"),
   ("Topic 3 - Patterns, Errors or Anomalies",
    "Answer briefly and directly in one line per item, without introduction. Use this format:\nAnomalous behavior: Yes/No, explanation ...\nFailed/repeated access attempts: Yes/No, alert ...\nSuspicious/malicious files: list of filenames or None\n\n"),
   ("Topic 4 - Conclusions",
    "Answer using this format, as briefly as possible, without introduction:\nPossible cause of errors: ...\nSuggested solutions: ...\nSigns of attack: Yes/No, type: ...\nGeneral diagnosis: ...\n\n"),
   ("Topic 5 - Multiple Choice Questions",
    "Answer only with the chosen letter(s), without justification or extra text. Format:\n\n1: A/B/C/D/E\n2: A/B/C/D/E\n3: A/B/C/D/E\n4: A/B/C/D/E\n5: A/B/C/D/E\n6: A/B/C/D/E\n")]

/-- The `ONE_SHOT_EXAMPLES` table of src/dataset.py, verbatim: a single
worked example, for Topic 1. -/
def ONE_SHOT_EXAMPLES : Dict OneShot :=
  [("Topic 1 - Basic Events",
    { logs :=
        [{ timestamp := 1749969974273, agent_name := "clavo.ugr.es",
           rule_level := 11, rule_id := 521,
           rule_description := "Possible kernel level rootkit", recuento := 6 },
         { timestamp := 1749465036918, agent_name := "hera.ugr.es",
           rule_level := 10, rule_id := 2502,
           rule_description := "syslog: User missed the password more than one time",
           recuento := 1 },
         { timestamp := 1750758711146, agent_name := "hera.ugr.es",
           rule_level := 10, rule_id := 80711,
           rule_description := "Auditd: Process ended abnormally.", recuento := 1 }],
      answer :=
        "There are 8 events.\nThere are 2 agents: clavo.ugr.es, hera.ugr.es\nThe most critical event is Possible kernel level rootkit with level 11.\nThe most repeated event is syslog: Possible kernel level rootkit with a count of 6.\n" })]

/-- The fixed instruction header of `Dataset.generate_prompt`. -/
def PROMPT_HEADER : String :=
  "Answer the questions strictly following the templates as precisely as possible.\n"

/-- `Dataset.generate_prompt` (src/dataset.py lines 196-226) over the
loaded log records, with `json.dumps(-, indent=2)` abstracted as the
serializer `dumps`: take the first 44 records in loaded order, start from
the instruction header, append the one-shot example when the topic has
one, then the real logs, the response style and the questions joined by
newline. -/
def generate_prompt (dumps : List LogRecord → String)
    (logs : List LogRecord) (topic : String) : String :=
  let sample := logs.take 44
  let style := dgetD topic RESPONSE_STYLES ""
  let questions := String.intercalate "\n" (dgetD topic QUESTIONS [])
  let with_example :=
    match dget topic ONE_SHOT_EXAMPLES with
    | some one_shot =>
        PROMPT_HEADER ++ "\n### Example:\n" ++ dumps one_shot.logs ++ "\n" ++
          one_shot.answer ++ "\n"
    | none => PROMPT_HEADER
  with_example ++ "\n### Real logs:\n" ++ dumps sample ++ "\n\n" ++ style ++ questions

/-- `load_ground_truth` (evaluate_models.py lines 53-66) over an explicit
file system: a mapping from the paths that exist to their parsed content.
A missing path raises `FileNotFoundError` with the descriptive message. -/
def load_ground_truth (fs : Dict (Dict (Dict String))) (path : String) :
    Except String (Dict (Dict String)) :=
  match dget path fs with
  | none => Except.error ("Ground truth file not found: " ++ path)
  | some content => Except.ok content

/-- The ground-truth branch of `main` (evaluate_models.py lines 124-136):
load the ground truth — aborting on a missing file — and only then
evaluate all models. -/
def run_groundtruth_mode (fs : Dict (Dict (Dict String))) (path : String)
    (responses : Dict ModelData) : Except String (Dict EvalResult) :=
  match load_ground_truth fs path with
  | Except.error e => Except.error e
  | Except.ok ground_truth => Except.ok (evaluate_all_models responses ground_truth)

/-- `dict.get` as an explicit state transition: every access the evaluator
performs on its input dicts is this read, which returns the dict it was
given. -/
def dget_st {α : Type} (k : String) (d : Dict α) : Option α × Dict α :=
  (dget k d, d)

/-- `evaluate_model_response` with the input state threaded explicitly:
every access to the ground-truth dict and the model record is a read, and
both come out of the call as they went in. -/
def evaluate_model_response_st (ground_truth : Dict (Dict String))
    (model_data : ModelData) : EvalResult × Dict (Dict String) × ModelData :=
  let topic := model_data.topic
  let model_answers := model_data.questions_answers.getD []
  let ea_read :=
    match topic with
    | none => ([], ground_truth)
    | some t => ((dget_st t ground_truth).1.getD [], (dget_st t ground_truth).2)
  let expected_answers := ea_read.1
  let total := expected_answers.length
  let cd := expected_answers.foldl (eval_step model_answers) (0, [])
  let score := if total > 0 then Rat.divInt (round_frac ((cd.1 : ℤ) * 1000) total) 100 else 0
  ({ topic := topic, file := model_data.file, score := score,
     correct := cd.1, total := total, details := cd.2 }, ea_read.2, model_data)

/-- `evaluate_all_models` with the input state threaded explicitly through
every per-model call: the answers dict is only iterated, the ground-truth
dict is passed through each `evaluate_model_response_st`, and both are
returned alongside the results. -/
def evaluate_all_models_st (answers : Dict ModelData)
    (ground_truth : Dict (Dict String)) :
    Dict EvalResult × Dict ModelData × Dict (Dict String) :=
  let final := answers.foldl
    (fun (acc : Dict EvalResult × Dict (Dict String)) p =>
      ((dinsert p.1 (evaluate_model_response_st acc.2 p.2).1 acc.1),
       (evaluate_model_response_st acc.2 p.2).2.1))
    ([], ground_truth)
  (final.1, answers, final.2)

/-! Concrete inputs used by the witnesses and the counterexample. -/

/-- Ground truth with one topic and four questions. -/
def gt_four : Dict (Dict String) :=
  [("T", [("a", "1"), ("b", "2"), ("c", "3"), ("d", "4")])]

/-- A model record answering three of the four questions correctly. -/
def md_three_of_four : ModelData :=
  { model := some "m", topic := some "T",
    questions_answers := some [("a", "1"), ("b", "2"), ("c", "3"), ("d", "9")],
    file := none }

/-- The end-to-end scenario ground truth `{"T": {"Q1":"Yes","Q2":"No"}}`. -/
def gt_scenario : Dict (Dict String) :=
  [("T", [("Q1", "Yes"), ("Q2", "No")])]

/-- The end-to-end scenario model answer
`{"model":"m1","topic":"T","questions_answers":{"Q1":"yes","Q2":"Maybe"}}`. -/
def md_scenario : ModelData :=
  { model := some "m1", topic := some "T",
    questions_answers := some [("Q1", "yes"), ("Q2", "Maybe")], file := none }

/-- A model record whose topic is absent from `gt_scenario`. -/
def md_unknown_topic : ModelData :=
  { model := some "m2", topic := some "X",
    questions_answers := some [("Q1", "yes")], file := none }

/-- Ground truth whose only expected answer is the empty string. -/
def gt_empty_expected : Dict (Dict String) :=
  [("T", [("Q", "")])]

/-- Ground truth with a single non-empty expected answer. -/
def gt_one_question : Dict (Dict String) :=
  [("T", [("Q", "Yes")])]

/-- A model record with no `questions_answers` field at all. -/
def md_no_answers : ModelData :=
  { model := some "m", topic := some "T", questions_answers := none, file := none }

/-- A directory listing: one malformed file, two files declaring the same
model, one file with a foreign extension, one file lacking the model field. -/
def dir_listing : List DirEntry :=
  [{ name := "bad.json", parsed := none },
   { name := "a.json", parsed := some { model := some "m1", body := "A" } },
   { name := "notes.txt", parsed := some { model := some "m1", body := "T" } },
   { name := "nomodel.json", parsed := some { model := none, body := "N" } },
   { name := "c.json", parsed := some { model := some "m1", body := "C" } }]

/-- Loaded responses whose keys include one containing the marker. -/
def responses_with_reference : Dict ModelData :=
  [("llama", md_scenario), ("openai_GPT4", md_scenario), ("claude", md_scenario)]

/-- Loaded responses none of whose keys contain the marker. -/
def responses_without_reference : Dict ModelData :=
  [("llama", md_scenario), ("claude", md_scenario)]

/-- A one-field log record used to build concrete log samples. -/
def sample_record (n : ℤ) : LogRecord :=
  { timestamp := n, agent_name := "agent", rule_level := 3, rule_id := n,
    rule_description := "event", recuento := 1 }

/-! Dictionary lemmas. -/

theorem dget_dinsert {α : Type} (k m : String) (v : α) (d : Dict α) :
    dget m (dinsert k v d) = if k = m then some v else dget m d := by
  induction d with
  | nil => simp [dget, dinsert]
  | cons p rest ih =>
    by_cases hpk : p.1 = k
    · by_cases hkm : k = m <;> simp [dget, dinsert, hpk, hkm]
    · by_cases hpm : p.1 = m
      · have hkm : ¬ k = m := fun h => hpk (h ▸ hpm)
        have hmk : ¬ m = k := fun h => hkm h.symm
        simp [dget, dinsert, hpk, hpm, hkm, hmk]
      · simp [dget, dinsert, hpk, hpm, ih]

theorem dinsert_fresh {α : Type} (k : String) (v : α) (d : Dict α)
    (h : dget k d = none) : dinsert k v d = d ++ [(k, v)] := by
  induction d with
  | nil => simp [dinsert]
  | cons p rest ih =>
    by_cases hpk : p.1 = k
    · simp [dget, hpk] at h
    · simp [dget, hpk] at h
      simp [dinsert, hpk, ih h]

theorem dget_append_of_none {α : Type} (q : String) (d l : Dict α)
    (h : dget q d = none) : dget q (d ++ l) = dget q l := by
  induction d with
  | nil => simp
  | cons p rest ih =>
    by_cases hpq : p.1 = q
    · simp [dget, hpq] at h
    · simp [dget, hpq] at h ⊢
      exact ih h

theorem dget_mem {α : Type} (t : String) (v : α) :
    ∀ d : Dict α, dget t d = some v → (t, v) ∈ d := by
  intro d
  induction d with
  | nil => intro h; simp [dget] at h
  | cons p rest ih =>
    intro h
    by_cases hpt : p.1 = t
    · simp [dget, hpt] at h
      have hp : p = (t, v) := by
        cases p
        simp_all
      rw [hp]
      exact List.mem_cons_self _ _
    · simp [dget, hpt] at h
      exact List.mem_cons_of_mem _ (ih h)

theorem dget_map_of_mem {α β : Type} (f : String × α → β) (q : String) (e : α) :
    ∀ l : List (String × α), (l.map Prod.fst).Nodup → (q, e) ∈ l →
      dget q (l.map (fun p => (p.1, f p))) = some (f (q, e)) := by
  intro l
  induction l with
  | nil => intro _ h; simp at h
  | cons p rest ih =>
    intro hnd hmem
    rw [List.map_cons, List.nodup_cons] at hnd
    rcases List.mem_cons.mp hmem with heq | hmem
    · subst heq
      simp [dget]
    · have hq : p.1 ≠ q := by
        intro h
        exact hnd.1 (h ▸ List.mem_map_of_mem Prod.fst hmem)
      simp only [List.map_cons, dget, hq, if_false]
      exact ih hnd.2 hmem

/-! The comparison loop of `evaluate_model_response`. -/

theorem eval_fold_count (model_answers : Dict String) :
    ∀ (ea : Dict String) (c : ℕ) (d : Dict String),
      (ea.foldl (eval_step model_answers) (c, d)).1 =
        c + (ea.filter (answers_match model_answers)).length := by
  intro ea
  induction ea with
  | nil => intro c d; simp
  | cons qa rest ih =>
    intro c d
    by_cases h : answers_match model_answers qa
    · have hstep : eval_step model_answers (c, d) qa =
          (c + 1, dinsert qa.1 (correct_detail qa.2 (str_strip (dgetD qa.1 model_answers ""))) d) := by
        simp [eval_step, answers_match] at h ⊢
        simp [h]
      rw [List.foldl_cons, hstep, ih, List.filter_cons_of_pos h]
      simp
      omega
    · have hstep : eval_step model_answers (c, d) qa =
          (c, dinsert qa.1 (incorrect_detail qa.2 (str_strip (dgetD qa.1 model_answers ""))) d) := by
        simp [eval_step, answers_match] at h ⊢
        simp [h]
      rw [List.foldl_cons, hstep, ih, List.filter_cons_of_neg (by simpa using h)]

theorem eval_step_snd (model_answers : Dict String) (c : ℕ) (d : Dict String)
    (qa : String × String) :
    (eval_step model_answers (c, d) qa).2 =
      dinsert qa.1 (detail_str model_answers qa) d := by
  by_cases h : answers_match model_answers qa
  · simp [eval_step, detail_str, answers_match] at h ⊢
    simp [h]
  · simp [eval_step, detail_str, answers_match] at h ⊢
    simp [h]

theorem eval_fold_details (model_answers : Dict String) :
    ∀ (ea : Dict String) (c : ℕ) (d : Dict String),
      (ea.map Prod.fst).Nodup →
      (∀ q ∈ ea.map Prod.fst, dget q d = none) →
      (ea.foldl (eval_step model_answers) (c, d)).2 =
        d ++ ea.map (fun qa => (qa.1, detail_str model_answers qa)) := by
  intro ea
  induction ea with
  | nil => intro c d _ _; simp
  | cons qa rest ih =>
    intro c d hnd hfresh
    rw [List.map_cons, List.nodup_cons] at hnd
    have hfresh0 : dget qa.1 d = none := hfresh qa.1 (by simp)
    have hstep2 : (eval_step model_answers (c, d) qa).2 =
        d ++ [(qa.1, detail_str model_answers qa)] := by
      rw [eval_step_snd, dinsert_fresh _ _ _ hfresh0]
    rw [List.foldl_cons]
    have hpair : eval_step model_answers (c, d) qa =
        ((eval_step model_answers (c, d) qa).1,
         d ++ [(qa.1, detail_str model_answers qa)]) := by
      rw [← hstep2]
    rw [hpair, ih _ _ hnd.2]
    · simp
    · intro q hq
      have hqne : ¬ qa.1 = q := by
        intro h
        exact hnd.1 (h ▸ hq)
      rw [dget_append_of_none _ _ _ (hfresh q (by simp [hq]))]
      simp [dget, hqne]

/-! The rounding bridge: the evaluator's integer arithmetic computes the
textbook half-even rounding of `(correct / total) * 10` to two decimals. -/

theorem round_frac_eq (a : ℤ) (b : ℕ) (hb : 0 < b) :
    round_frac a b = round_half_even ((a : ℚ) / (b : ℚ)) := by
  have hbq : (0:ℚ) < (b:ℚ) := by exact_mod_cast hb
  have hbq0 : (b:ℚ) ≠ 0 := ne_of_gt hbq
  have hfl : ⌊(a:ℚ) / (b:ℚ)⌋ = a / (b:ℤ) := Rat.floor_intCast_div_natCast a b
  have hkey : (b:ℤ) * (a / (b:ℤ)) + a % (b:ℤ) = a := Int.ediv_add_emod a b
  have hq : ((b:ℚ)) * ((a / (b:ℤ) : ℤ) : ℚ) + ((a % (b:ℤ) : ℤ) : ℚ) = (a:ℚ) := by
    exact_mod_cast congrArg (fun z : ℤ => (z : ℚ)) hkey
  have hfrac : (a:ℚ) / (b:ℚ) - ((a / (b:ℤ) : ℤ) : ℚ) = ((a % (b:ℤ) : ℤ) : ℚ) / (b:ℚ) := by
    field_simp
    linarith [hq]
  have h1 : (((a % (b:ℤ)) : ℤ) : ℚ) / (b:ℚ) < 1/2 ↔ 2 * (a % (b:ℤ)) < (b:ℤ) := by
    rw [div_lt_div_iff₀ hbq (by norm_num : (0:ℚ) < 2)]
    rw [show ((1:ℚ) * (b:ℚ)) = ((b:ℤ) : ℚ) by push_cast; ring]
    rw [show (((a % (b:ℤ) : ℤ) : ℚ) * 2) = ((2 * (a % (b:ℤ)) : ℤ) : ℚ) by push_cast; ring]
    exact Int.cast_lt
  have h2 : (1:ℚ)/2 < (((a % (b:ℤ)) : ℤ) : ℚ) / (b:ℚ) ↔ (b:ℤ) < 2 * (a % (b:ℤ)) := by
    rw [div_lt_div_iff₀ (by norm_num : (0:ℚ) < 2) hbq]
    rw [show ((1:ℚ) * (b:ℚ)) = ((b:ℤ) : ℚ) by push_cast; ring]
    rw [show (((a % (b:ℤ) : ℤ) : ℚ) * 2) = ((2 * (a % (b:ℤ)) : ℤ) : ℚ) by push_cast; ring]
    exact Int.cast_lt
  rw [round_half_even, round_frac, hfl, hfrac]
  simp only [h1, h2]

theorem round_frac_nonneg (a : ℤ) (b : ℕ) (ha : 0 ≤ a) : 0 ≤ round_frac a b := by
  have hf : 0 ≤ a / (b:ℤ) := Int.ediv_nonneg ha (by positivity)
  rw [round_frac]
  split
  · exact hf
  · split
    · omega
    · split <;> omega

theorem round_frac_le_thousand (a : ℤ) (b : ℕ) (hb : 0 < b) (h : a ≤ 1000 * b) :
    round_frac a b ≤ 1000 := by
  have hbz : (0:ℤ) < (b:ℤ) := by exact_mod_cast hb
  have hf : a / (b:ℤ) ≤ 1000 := by
    have h2 : a / (b:ℤ) ≤ (1000 * (b:ℤ)) / (b:ℤ) := Int.ediv_le_ediv hbz (by exact_mod_cast h)
    rwa [Int.mul_ediv_cancel _ (ne_of_gt hbz)] at h2
  have hkey : (b:ℤ) * (a / (b:ℤ)) + a % (b:ℤ) = a := Int.ediv_add_emod a b
  have hcast : a ≤ 1000 * (b:ℤ) := by exact_mod_cast h
  rw [round_frac]
  by_cases h1 : 2 * (a % (b:ℤ)) < (b:ℤ)
  · rw [if_pos h1]
    exact hf
  · have hf999 : a / (b:ℤ) ≤ 999 := by
      by_contra hcon
      have hfe : a / (b:ℤ) = 1000 := by omega
      rw [hfe] at hkey
      omega
    rw [if_neg h1]
    split
    · omega
    · split <;> omega

theorem divInt_hundred_nonneg (z : ℤ) (hz : 0 ≤ z) : 0 ≤ Rat.divInt z 100 := by
  rw [Rat.divInt_eq_div]
  apply div_nonneg
  · exact_mod_cast hz
  · norm_num

theorem divInt_hundred_le_ten (z : ℤ) (hz : z ≤ 1000) : Rat.divInt z 100 ≤ 10 := by
  rw [Rat.divInt_eq_div]
  rw [show (((100:ℤ)):ℚ) = 100 from by norm_num]
  rw [div_le_iff₀ (by norm_num : (0:ℚ) < 100)]
  have hc : (z:ℚ) ≤ 1000 := by exact_mod_cast hz
  linarith

theorem score_formula_aux (c t : ℕ) (ht : 0 < t) :
    Rat.divInt (round_frac ((c : ℤ) * 1000) t) 100 = round2 ((c : ℚ) / (t : ℚ) * 10) := by
  rw [round2, Rat.divInt_eq_div, round_frac_eq _ _ ht]
  congr 2
  push_cast
  ring

/-! Projections of `evaluate_model_response`. -/

theorem emr_total (ground_truth : Dict (Dict String)) (md : ModelData) :
    (evaluate_model_response ground_truth md).total =
      (expected_for ground_truth md.topic).length := rfl

theorem emr_correct (ground_truth : Dict (Dict String)) (md : ModelData) :
    (evaluate_model_response ground_truth md).correct =
      ((expected_for ground_truth md.topic).filter
        (answers_match (md.questions_answers.getD []))).length := by
  show ((expected_for ground_truth md.topic).foldl
      (eval_step (md.questions_answers.getD [])) (0, [])).1 = _
  rw [eval_fold_count]
  simp

theorem emr_details (ground_truth : Dict (Dict String)) (md : ModelData)
    (hnd : ((expected_for ground_truth md.topic).map Prod.fst).Nodup) :
    (evaluate_model_response ground_truth md).details =
      (expected_for ground_truth md.topic).map
        (fun qa => (qa.1, detail_str (md.questions_answers.getD []) qa)) := by
  show ((expected_for ground_truth md.topic).foldl
      (eval_step (md.questions_answers.getD [])) (0, [])).2 = _
  have hfresh : ∀ q ∈ (expected_for ground_truth md.topic).map Prod.fst,
      dget q ([] : Dict String) = none := by
    intro q _
    rfl
  rw [eval_fold_details _ _ _ _ hnd hfresh]
  simp

theorem emr_score (ground_truth : Dict (Dict String)) (md : ModelData) :
    (evaluate_model_response ground_truth md).score =
      if 0 < (evaluate_model_response ground_truth md).total then
        Rat.divInt
          (round_frac (((evaluate_model_response ground_truth md).correct : ℤ) * 1000)
            (evaluate_model_response ground_truth md).total) 100
      else 0 := rfl

theorem emr_correct_le_total (ground_truth : Dict (Dict String)) (md : ModelData) :
    (evaluate_model_response ground_truth md).correct ≤
      (evaluate_model_response ground_truth md).total := by
  rw [emr_correct, emr_total]
  exact List.length_filter_le _ _

theorem expected_for_eq (ground_truth : Dict (Dict String)) (md : ModelData)
    (t : String) (ea : Dict String)
    (htopic : md.topic = some t) (hgt : dget t ground_truth = some ea) :
    expected_for ground_truth md.topic = ea := by
  rw [htopic]
  simp [expected_for, dgetD, hgt]

theorem emr_score_round2 (ground_truth : Dict (Dict String)) (md : ModelData)
    (ht : 0 < (evaluate_model_response ground_truth md).total) :
    (evaluate_model_response ground_truth md).score =
      round2 (((evaluate_model_response ground_truth md).correct : ℚ) /
        ((evaluate_model_response ground_truth md).total : ℚ) * 10) := by
  rw [emr_score, if_pos ht, score_formula_aux _ _ ht]

theorem emr_score_nonneg (ground_truth : Dict (Dict String)) (md : ModelData) :
    0 ≤ (evaluate_model_response ground_truth md).score := by
  rw [emr_score]
  split
  · exact divInt_hundred_nonneg _
      (round_frac_nonneg _ _ (mul_nonneg (Int.natCast_nonneg _) (by norm_num)))
  · exact le_refl 0

/-! The response loader. -/

theorem load_step_keeps (acc : Dict RawContent) (fe : DirEntry) (m : String)
    (hm : m ≠ "") (hk : keeps fe m = true) :
    dget m (load_step acc fe) = fe.parsed := by
  cases hp : fe.parsed with
  | none => simp [keeps, hp] at hk
  | some content =>
    simp only [keeps, hp, Bool.and_eq_true, beq_iff_eq] at hk
    obtain ⟨he, hmod⟩ := hk
    simp [load_step, hp, he, hmod, hm, dget_dinsert]

theorem load_step_not_keeps (acc : Dict RawContent) (fe : DirEntry) (m : String)
    (hk : keeps fe m = false) :
    dget m (load_step acc fe) = dget m acc := by
  by_cases he : ends_with fe.name ".json"
  · cases hp : fe.parsed with
    | none => simp [load_step, hp, he]
    | some content =>
      cases hmod : content.model with
      | none => simp [load_step, hp, he, hmod]
      | some m2 =>
        have hne : ¬ m2 = m := by
          intro h
          subst h
          simp [keeps, hp, hmod, he] at hk
        by_cases hempty : m2 = ""
        · simp [load_step, hp, he, hmod, hempty]
        · simp [load_step, hp, he, hmod, hempty, dget_dinsert, hne]
  · simp [load_step, he]

theorem load_fold (m : String) (hm : m ≠ "") :
    ∀ (files : List DirEntry) (acc : Dict RawContent),
      dget m (files.foldl load_step acc) =
        (match find_last (fun fe => keeps fe m) files with
         | some fe => fe.parsed
         | none => dget m acc) := by
  intro files
  induction files with
  | nil => intro acc; rfl
  | cons fe rest ih =>
    intro acc
    rw [List.foldl_cons, ih (load_step acc fe)]
    show _ = (match find_last (fun fe => keeps fe m) (fe :: rest) with
      | some g => g.parsed
      | none => dget m acc)
    rw [find_last]
    cases hfind : find_last (fun fe => keeps fe m) rest with
    | some g => rfl
    | none =>
      by_cases hk : keeps fe m
      · simp only [hk, if_true]
        exact load_step_keeps acc fe m hm hk
      · simp only [hk, if_false, Bool.false_eq_true]
        exact load_step_not_keeps acc fe m (by simpa using hk)

theorem load_empty_key :
    ∀ (files : List DirEntry) (acc : Dict RawContent),
      dget "" acc = none → dget "" (files.foldl load_step acc) = none := by
  intro files
  induction files with
  | nil => intro acc h; exact h
  | cons fe rest ih =>
    intro acc h
    rw [List.foldl_cons]
    apply ih
    by_cases he : ends_with fe.name ".json"
    · cases hp : fe.parsed with
      | none => simp [load_step, hp, he, h]
      | some content =>
        cases hmod : content.model with
        | none => simp [load_step, hp, he, hmod, h]
        | some m2 =>
          by_cases hempty : m2 = ""
          · simp [load_step, hp, he, hmod, hempty, h]
          · simp [load_step, hp, he, hmod, hempty, dget_dinsert, h]
    · simp [load_step, he, h]

/-! First-match semantics of `List.find?`. -/

theorem find?_first {α : Type} (p : α → Bool) :
    ∀ (l : List α) (i : ℕ) (h : i < l.length),
      p (l.get ⟨i, h⟩) = true →
      (∀ j (hj : j < i), p (l.get ⟨j, Nat.lt_trans hj h⟩) = false) →
      l.find? p = some (l.get ⟨i, h⟩) := by
  intro l
  induction l with
  | nil => intro i h; exact absurd h (by simp)
  | cons a rest ih =>
    intro i h hp hprev
    cases i with
    | zero =>
      have hpa : p a = true := hp
      rw [List.find?_cons_of_pos _ hpa]
      rfl
    | succ i =>
      have h0 : p a = false := hprev 0 (Nat.succ_pos i)
      rw [List.find?_cons_of_neg _ (by simp [h0])]
      have h2 : i < rest.length := Nat.lt_of_succ_lt_succ h
      have hp2 : p (rest.get ⟨i, h2⟩) = true := hp
      have hprev2 : ∀ j (hj : j < i), p (rest.get ⟨j, Nat.lt_trans hj h2⟩) = false := by
        intro j hj
        exact hprev (j + 1) (Nat.succ_lt_succ hj)
      rw [ih i h2 hp2 hprev2]
      rfl

/-! State threading: the evaluator only reads its inputs. -/

theorem emr_st_eq (ground_truth : Dict (Dict String)) (md : ModelData) :
    evaluate_model_response_st ground_truth md =
      (evaluate_model_response ground_truth md, ground_truth, md) := by
  rcases md with ⟨mo, topo, qa, fi⟩
  cases topo <;> rfl

theorem eval_all_st_thread (ground_truth : Dict (Dict String)) :
    ∀ (l : Dict ModelData) (acc : Dict EvalResult),
      l.foldl
        (fun (acc : Dict EvalResult × Dict (Dict String)) p =>
          ((dinsert p.1 (evaluate_model_response_st acc.2 p.2).1 acc.1),
           (evaluate_model_response_st acc.2 p.2).2.1))
        (acc, ground_truth) =
      (l.foldl (fun results p => dinsert p.1 (evaluate_model_response ground_truth p.2) results) acc,
       ground_truth) := by
  intro l
  induction l with
  | nil => intro acc; rfl
  | cons p rest ih =>
    intro acc
    rw [List.foldl_cons, List.foldl_cons]
    have hstep :
        ((dinsert p.1 (evaluate_model_response_st ((acc, ground_truth) : Dict EvalResult × Dict (Dict String)).2 p.2).1 acc),
         (evaluate_model_response_st ((acc, ground_truth) : Dict EvalResult × Dict (Dict String)).2 p.2).2.1) =
        ((dinsert p.1 (evaluate_model_response ground_truth p.2) acc, ground_truth) :
          Dict EvalResult × Dict (Dict String)) := by
      rw [show ((acc, ground_truth) : Dict EvalResult × Dict (Dict String)).2 = ground_truth from rfl,
        emr_st_eq]
    rw [hstep, ih]

/-! `evaluate_all_models` over well-formed dicts is the pointwise image. -/

theorem eval_all_eq_map (ground_truth : Dict (Dict String)) :
    ∀ (answers : Dict ModelData), (answers.map Prod.fst).Nodup →
      evaluate_all_models answers ground_truth =
        answers.map (fun p => (p.1, evaluate_model_response ground_truth p.2)) := by
  have gen : ∀ (l : Dict ModelData) (acc : Dict EvalResult),
      (l.map Prod.fst).Nodup →
      (∀ q ∈ l.map Prod.fst, dget q acc = none) →
      l.foldl (fun results p => dinsert p.1 (evaluate_model_response ground_truth p.2) results) acc =
        acc ++ l.map (fun p => (p.1, evaluate_model_response ground_truth p.2)) := by
    intro l
    induction l with
    | nil => intro acc _ _; simp
    | cons p rest ih =>
      intro acc hnd hfresh
      rw [List.map_cons, List.nodup_cons] at hnd
      rw [List.foldl_cons, dinsert_fresh _ _ _ (hfresh p.1 (by simp))]
      rw [ih _ hnd.2 ?_]
      · simp
      · intro q hq
        have hqne : ¬ p.1 = q := fun hh => hnd.1 (hh ▸ hq)
        rw [dget_append_of_none _ _ _ (hfresh q (by simp [hq]))]
        simp [dget, hqne]
  intro answers hnd
  have h := gen answers [] hnd (fun q _ => rfl)
  simpa using h

theorem emr_score_le_ten (ground_truth : Dict (Dict String)) (md : ModelData) :
    (evaluate_model_response ground_truth md).score ≤ 10 := by
  rw [emr_score]
  split
  · rename_i ht
    apply divInt_hundred_le_ten
    apply round_frac_le_thousand _ _ ht
    have hle := emr_correct_le_total ground_truth md
    have hlez : ((evaluate_model_response ground_truth md).correct : ℤ) ≤
        ((evaluate_model_response ground_truth md).total : ℤ) := by exact_mod_cast hle
    omega
  · norm_num

/-! The claims. -/

/-- C1: for a record whose topic has a non-empty ground-truth mapping, the
evaluation compares each expected pair against the model answer fetched
with default `""`, stripped and case-folded (`answers_match`), with no
partial credit: `correct` counts exactly the matching pairs, `total` is
the size of the mapping, and the score is
`round(correct / total * 10, 2)`. -/
theorem exact_match_scoring (ground_truth : Dict (Dict String)) (md : ModelData)
    (t : String) (ea : Dict String)
    (htopic : md.topic = some t) (hgt : dget t ground_truth = some ea)
    (hne : ea ≠ []) :
    (evaluate_model_response ground_truth md).total = ea.length ∧
    (evaluate_model_response ground_truth md).correct =
      (ea.filter (answers_match (md.questions_answers.getD []))).length ∧
    (evaluate_model_response ground_truth md).score =
      round2 (((evaluate_model_response ground_truth md).correct : ℚ) /
        ((evaluate_model_response ground_truth md).total : ℚ) * 10) := by
  have hea := expected_for_eq ground_truth md t ea htopic hgt
  refine ⟨?_, ?_, ?_⟩
  · rw [emr_total, hea]
  · rw [emr_correct, hea]
  · apply emr_score_round2
    rw [emr_total, hea]
    exact List.length_pos.mpr hne

/-- Witness for C1: with four expected answers and three matches the result
is `correct = 3`, `total = 4`, `score = 7.5`, and the score agrees with the
`round2` formula. -/
theorem exact_match_scoring_witness :
    md_three_of_four.topic = some "T" ∧
    dget "T" gt_four = some [("a", "1"), ("b", "2"), ("c", "3"), ("d", "4")] ∧
    ([("a", "1"), ("b", "2"), ("c", "3"), ("d", "4")] : Dict String) ≠ [] ∧
    (evaluate_model_response gt_four md_three_of_four).correct = 3 ∧
    (evaluate_model_response gt_four md_three_of_four).total = 4 ∧
    (evaluate_model_response gt_four md_three_of_four).score = Rat.divInt 75 10 ∧
    (evaluate_model_response gt_four md_three_of_four).score =
      round2 (((evaluate_model_response gt_four md_three_of_four).correct : ℚ) /
        ((evaluate_model_response gt_four md_three_of_four).total : ℚ) * 10) := by
  refine ⟨rfl, by decide, by decide, by decide, by decide, by decide, ?_⟩
  exact (exact_match_scoring gt_four md_three_of_four "T"
    [("a", "1"), ("b", "2"), ("c", "3"), ("d", "4")] rfl (by decide) (by decide)).2.2

/-- C2: the details mapping has exactly one entry per ground-truth question,
in order, and each entry is the verdict string `detail_str` — the
correct/incorrect marker together with the expected answer and the model's
produced (stripped) answer. -/
theorem details_verdicts (ground_truth : Dict (Dict String)) (md : ModelData)
    (t : String) (ea : Dict String)
    (htopic : md.topic = some t) (hgt : dget t ground_truth = some ea)
    (hnd : (ea.map Prod.fst).Nodup) :
    (evaluate_model_response ground_truth md).details =
      ea.map (fun qa => (qa.1, detail_str (md.questions_answers.getD []) qa)) ∧
    (evaluate_model_response ground_truth md).details.map Prod.fst = ea.map Prod.fst := by
  have hea := expected_for_eq ground_truth md t ea htopic hgt
  have h1 : (evaluate_model_response ground_truth md).details =
      ea.map (fun qa => (qa.1, detail_str (md.questions_answers.getD []) qa)) := by
    rw [emr_details _ _ (by rw [hea]; exact hnd), hea]
  refine ⟨h1, ?_⟩
  rw [h1]
  simp [List.map_map, Function.comp]

/-- Witness for C2: the end-to-end scenario — ground truth
`{"T": {"Q1":"Yes","Q2":"No"}}`, answers `{"Q1":"yes","Q2":"Maybe"}` —
gives `correct = 1`, `total = 2`, `score = 5.0`, `Q1` marked correct and
`Q2` marked incorrect showing expected `No` and produced `Maybe`. -/
theorem details_verdicts_witness :
    (evaluate_model_response gt_scenario md_scenario).correct = 1 ∧
    (evaluate_model_response gt_scenario md_scenario).total = 2 ∧
    (evaluate_model_response gt_scenario md_scenario).score = 5 ∧
    (evaluate_model_response gt_scenario md_scenario).details =
      [("Q1", correct_detail "Yes" "yes"), ("Q2", incorrect_detail "No" "Maybe")] ∧
    (evaluate_model_response gt_scenario md_scenario).details =
      ([("Q1", "Yes"), ("Q2", "No")] : Dict String).map
        (fun qa => (qa.1, detail_str (md_scenario.questions_answers.getD []) qa)) := by
  refine ⟨by decide, by decide, by decide, by decide, ?_⟩
  exact (details_verdicts gt_scenario md_scenario "T" [("Q1", "Yes"), ("Q2", "No")]
    rfl (by decide) (by decide)).1

/-- C3: a record whose topic is absent from the ground truth, or maps to an
empty dict, evaluates without failing to `total = 0`, `score = 0` and empty
details. -/
theorem no_ground_truth_zero (ground_truth : Dict (Dict String)) (md : ModelData)
    (h : ∀ t, md.topic = some t →
      dget t ground_truth = none ∨ dget t ground_truth = some []) :
    (evaluate_model_response ground_truth md).total = 0 ∧
    (evaluate_model_response ground_truth md).score = 0 ∧
    (evaluate_model_response ground_truth md).details = [] := by
  have hea : expected_for ground_truth md.topic = [] := by
    cases htop : md.topic with
    | none => rfl
    | some t => rcases h t htop with h1 | h1 <;> simp [expected_for, dgetD, h1]
  have ht : (evaluate_model_response ground_truth md).total = 0 := by
    rw [emr_total, hea]
    rfl
  refine ⟨ht, ?_, ?_⟩
  · rw [emr_score, ht]
    simp
  · rw [emr_details _ _ (by rw [hea]; exact List.nodup_nil), hea]
    rfl

/-- Witness for C3: a model whose topic `X` is not a ground-truth key
evaluates to the degenerate zero result rather than failing. -/
theorem no_ground_truth_zero_witness :
    (evaluate_model_response gt_scenario md_unknown_topic).total = 0 ∧
    (evaluate_model_response gt_scenario md_unknown_topic).score = 0 ∧
    (evaluate_model_response gt_scenario md_unknown_topic).details = [] :=
  no_ground_truth_zero gt_scenario md_unknown_topic
    (fun t ht => by
      simp only [md_unknown_topic, Option.some.injEq] at ht
      subst ht
      exact Or.inl (by decide))

/-- Counterexample to C4 as stated: when the expected answer is the empty
string, a question missing from the model's answers is marked CORRECT, not
incorrect — the empty produced answer equals the empty expected answer
after trimming and case-folding. -/
theorem missing_answer_marked_correct :
    (evaluate_model_response gt_empty_expected md_no_answers).details =
      [("Q", correct_detail "" "")] ∧
    (evaluate_model_response gt_empty_expected md_no_answers).correct = 1 ∧
    ¬ (evaluate_model_response gt_empty_expected md_no_answers).details =
        [("Q", incorrect_detail "" "")] := by
  decide

/-- C4 as amended: a ground-truth question missing from the model's
answers (including a record with no `questions_answers` field) is scored
without failing, with the empty string as the produced answer, and still
contributes to `total`; it is marked incorrect exactly when the expected
answer is non-empty (an empty expected answer makes it correct). -/
theorem missing_answer_scored_empty (ground_truth : Dict (Dict String)) (md : ModelData)
    (t : String) (ea : Dict String) (q e : String)
    (htopic : md.topic = some t) (hgt : dget t ground_truth = some ea)
    (hnd : (ea.map Prod.fst).Nodup) (hmem : (q, e) ∈ ea)
    (hmiss : dget q (md.questions_answers.getD []) = none) :
    dget q (evaluate_model_response ground_truth md).details =
      some (if e = "" then correct_detail e "" else incorrect_detail e "") ∧
    (evaluate_model_response ground_truth md).total = ea.length := by
  have hea := expected_for_eq ground_truth md t ea htopic hgt
  constructor
  · rw [emr_details _ _ (by rw [hea]; exact hnd), hea]
    rw [dget_map_of_mem (detail_str (md.questions_answers.getD [])) q e ea hnd hmem]
    congr 1
    have hfetch : dgetD q (md.questions_answers.getD []) "" = "" := by
      rw [dgetD, hmiss]
      rfl
    have hstrip : str_strip "" = "" := by decide
    by_cases he : e = ""
    · subst he
      simp [detail_str, answers_match, hfetch, hstrip]
    · have hlow : ¬ str_lower e = "" := by
        intro hcon
        apply he
        have hdata : e.data.map Char.toLower = ([] : List Char) :=
          congrArg String.data hcon
        have hnil : e.data = [] := List.map_eq_nil_iff.mp hdata
        cases e with
        | mk l =>
          cases hnil
          rfl
      have hbeq : (str_lower (str_strip "") == str_lower e) = false := by
        apply beq_eq_false_iff_ne.mpr
        rw [hstrip]
        intro hcon
        exact hlow (hcon.symm.trans (by decide))
      simp [detail_str, answers_match, hfetch, hbeq, he, hstrip]
      intro hcon
      exact absurd (hcon.symm.trans (by decide)) hlow
  · rw [emr_total, hea]

/-- Witness for the amended C4: a missing answer against expected `Yes` is
recorded as incorrect with produced answer `""` and counts toward the
total. -/
theorem missing_answer_scored_empty_witness :
    dget "Q" (evaluate_model_response gt_one_question md_no_answers).details =
      some (if ("Yes" : String) = "" then correct_detail "Yes" ""
        else incorrect_detail "Yes" "") ∧
    (evaluate_model_response gt_one_question md_no_answers).total = 1 :=
  missing_answer_scored_empty gt_one_question md_no_answers "T" [("Q", "Yes")]
    "Q" "Yes" rfl (by decide) (by decide) (by decide) (by decide)

/-- C5: loading from a flat directory listing considers only `.json`
files, never fails on malformed or model-less files, and keys the result
by model identifier with last-write-wins: the binding for `m` is the
parsed content of the LAST listed `.json` entry that parsed successfully
and declares model `m`, and is absent when no such entry exists (Python's
truthiness check also rejects an empty model string, so the empty
identifier is never a key). -/
theorem load_responses_last_write_wins (files : List DirEntry) (m : String)
    (hm : m ≠ "") :
    dget m (load_responses_from_directory files) =
      (match find_last (fun fe => keeps fe m) files with
       | some fe => fe.parsed
       | none => none) ∧
    dget "" (load_responses_from_directory files) = none := by
  constructor
  · rw [load_responses_from_directory, load_fold m hm files []]
    cases find_last (fun fe => keeps fe m) files <;> rfl
  · exact load_empty_key files [] rfl

/-- Witness for C5: a listing with a malformed file, a foreign extension,
a model-less file and two files declaring `m1` loads exactly one binding,
the later `m1` file (body `C`, not `A`), without failing. -/
theorem load_responses_last_write_wins_witness :
    ("m1" : String) ≠ "" ∧
    dget "m1" (load_responses_from_directory dir_listing) =
      some { model := some "m1", body := "C" } ∧
    (match find_last (fun fe => keeps fe "m1") dir_listing with
     | some fe => fe.parsed
     | none => none) = some { model := some "m1", body := "C" } ∧
    dget "" (load_responses_from_directory dir_listing) = none := by
  refine ⟨by decide, ?_, by decide, ?_⟩
  · rw [(load_responses_last_write_wins dir_listing "m1" (by decide)).1]
    decide
  · exact (load_responses_last_write_wins dir_listing "m1" (by decide)).2

/-- C6: in reference-judge mode the reference is the first loaded model
whose identifier, lowercased, contains `"gpt4"`; when no identifier
contains the marker the run fails with the explicit "no reference found"
error before the judge evaluation is ever applied (the conclusion holds
for every judge function). -/
theorem reference_selection {α : Type} (judge : String → Dict ModelData → α)
    (responses : Dict ModelData) :
    ((∀ m ∈ responses.map Prod.fst, contains_sub (str_lower m) "gpt4" = false) →
      reference_eval_mode judge responses =
        Except.error "❌ No GPT-4 reference response found.") ∧
    (∀ i (h : i < (responses.map Prod.fst).length),
      contains_sub (str_lower ((responses.map Prod.fst).get ⟨i, h⟩)) "gpt4" = true →
      (∀ j (hj : j < i),
        contains_sub (str_lower ((responses.map Prod.fst).get ⟨j, Nat.lt_trans hj h⟩))
          "gpt4" = false) →
      reference_eval_mode judge responses =
        Except.ok (judge ((responses.map Prod.fst).get ⟨i, h⟩) responses)) := by
  constructor
  · intro hall
    rw [reference_eval_mode, find_reference_model]
    rw [List.find?_eq_none.mpr (fun x hx => by simp [hall x hx])]
  · intro i h hp hprev
    rw [reference_eval_mode, find_reference_model]
    rw [find?_first _ _ i h hp hprev]

/-- Witness for C6: among `llama`, `openai_GPT4`, `claude` the reference
is `openai_GPT4` (case-insensitive containment), and with no qualifying
identifier the explicit error is raised. -/
theorem reference_selection_witness :
    reference_eval_mode (fun ref _ => ref) responses_with_reference =
      Except.ok "openai_GPT4" ∧
    reference_eval_mode (fun ref _ => ref) responses_without_reference =
      Except.error "❌ No GPT-4 reference response found." := by
  constructor
  · have hlen : 1 < (responses_with_reference.map Prod.fst).length := by decide
    have hp : contains_sub
        (str_lower ((responses_with_reference.map Prod.fst).get ⟨1, hlen⟩))
        "gpt4" = true :=
      (by decide : contains_sub (str_lower "openai_GPT4") "gpt4" = true)
    have hprev : ∀ j (hj : j < 1),
        contains_sub
          (str_lower ((responses_with_reference.map Prod.fst).get
            ⟨j, Nat.lt_trans hj hlen⟩)) "gpt4" = false := by
      intro j hj
      have hj0 : j = 0 := by omega
      subst hj0
      exact (by decide : contains_sub (str_lower "llama") "gpt4" = false)
    exact (reference_selection (fun ref _ => ref) responses_with_reference).2
      1 hlen hp hprev
  · exact (reference_selection (fun ref _ => ref) responses_without_reference).1
      (by decide)

/-- C7: the prompt is exactly the instruction header, the one-shot example
section when the topic has one, the `### Real logs:` section over the
first at-most-44 records in loaded order, the topic's response template
and the questions joined by newline; and the prompt depends on the log
sample only through its first 44 records (in particular it is a function
of its inputs — no randomness). -/
theorem generate_prompt_structure (dumps : List LogRecord → String)
    (logs : List LogRecord) (topic : String) :
    (generate_prompt dumps logs topic =
      (match dget topic ONE_SHOT_EXAMPLES with
       | some one_shot =>
           PROMPT_HEADER ++ "\n### Example:\n" ++ dumps one_shot.logs ++ "\n" ++
             one_shot.answer ++ "\n"
       | none => PROMPT_HEADER) ++
      "\n### Real logs:\n" ++ dumps (logs.take 44) ++ "\n\n" ++
      dgetD topic RESPONSE_STYLES "" ++
      String.intercalate "\n" (dgetD topic QUESTIONS [])) ∧
    (∀ logs2, logs.take 44 = logs2.take 44 →
      generate_prompt dumps logs topic = generate_prompt dumps logs2 topic) := by
  constructor
  · rw [generate_prompt]
  · intro logs2 htake
    simp only [generate_prompt, htake]

/-- Witness for C7: two samples that agree on their first 44 records (one
has a 45th, different record) produce the same prompt. -/
theorem generate_prompt_structure_witness :
    (List.replicate 45 (sample_record 1)).take 44 =
      (List.replicate 44 (sample_record 1) ++ [sample_record 2]).take 44 ∧
    generate_prompt (fun _ => "") (List.replicate 45 (sample_record 1))
        "Topic 2 - Content Summary" =
      generate_prompt (fun _ => "") (List.replicate 44 (sample_record 1) ++ [sample_record 2])
        "Topic 2 - Content Summary" := by
  refine ⟨by decide, ?_⟩
  exact (generate_prompt_structure (fun _ => "")
    (List.replicate 45 (sample_record 1)) "Topic 2 - Content Summary").2
    (List.replicate 44 (sample_record 1) ++ [sample_record 2]) (by decide)

/-- C8: evaluating all models is deterministic and effect-free on its
inputs: in the state-threaded embedding, the answers dict and the
ground-truth dict come out of the run unchanged, the results agree with
the pure function of the inputs, and a second run started from the state
left by the first yields identical results. -/
theorem evaluate_all_no_mutation (answers : Dict ModelData)
    (ground_truth : Dict (Dict String)) :
    (evaluate_all_models_st answers ground_truth).2.1 = answers ∧
    (evaluate_all_models_st answers ground_truth).2.2 = ground_truth ∧
    (evaluate_all_models_st answers ground_truth).1 =
      evaluate_all_models answers ground_truth ∧
    (evaluate_all_models_st (evaluate_all_models_st answers ground_truth).2.1
        (evaluate_all_models_st answers ground_truth).2.2).1 =
      (evaluate_all_models_st answers ground_truth).1 := by
  have hrun : evaluate_all_models_st answers ground_truth =
      (evaluate_all_models answers ground_truth, answers, ground_truth) := by
    rw [evaluate_all_models_st, eval_all_st_thread ground_truth answers []]
    rfl
  rw [hrun]
  exact ⟨rfl, rfl, rfl, by rw [hrun]⟩

/-- C9: a ground-truth path that does not exist raises the descriptive
`FileNotFoundError` and the ground-truth mode aborts with it before any
evaluation is performed. -/
theorem missing_ground_truth_fatal (fs : Dict (Dict (Dict String))) (path : String)
    (responses : Dict ModelData) (h : dget path fs = none) :
    load_ground_truth fs path =
      Except.error ("Ground truth file not found: " ++ path) ∧
    run_groundtruth_mode fs path responses =
      Except.error ("Ground truth file not found: " ++ path) := by
  have h1 : load_ground_truth fs path =
      Except.error ("Ground truth file not found: " ++ path) := by
    rw [load_ground_truth, h]
  exact ⟨h1, by rw [run_groundtruth_mode, h1]⟩

/-- Witness for C9: on an empty file system the configured path is missing
and the run aborts with the descriptive error. -/
theorem missing_ground_truth_fatal_witness :
    dget "eval/ground_truth_simulated.json" ([] : Dict (Dict (Dict String))) = none ∧
    run_groundtruth_mode [] "eval/ground_truth_simulated.json" [] =
      Except.error ("Ground truth file not found: " ++ "eval/ground_truth_simulated.json") :=
  ⟨rfl, (missing_ground_truth_fatal [] "eval/ground_truth_simulated.json" [] rfl).2⟩

/-- C10: over well-formed mappings (dict keys are unique), evaluating all
models returns exactly one result per input model, in input order, and
every result satisfies `correct ≤ total`, `total` equal to the size of the
topic's ground truth, as many detail entries as `total`, and a score
between 0 and 10. -/
theorem evaluate_all_invariants (answers : Dict ModelData)
    (ground_truth : Dict (Dict String))
    (hka : (answers.map Prod.fst).Nodup)
    (hgt : ∀ p ∈ ground_truth, ((p : String × Dict String).2.map Prod.fst).Nodup) :
    evaluate_all_models answers ground_truth =
      answers.map (fun p => (p.1, evaluate_model_response ground_truth p.2)) ∧
    (evaluate_all_models answers ground_truth).map Prod.fst = answers.map Prod.fst ∧
    ∀ p ∈ answers,
      (evaluate_model_response ground_truth p.2).correct ≤
        (evaluate_model_response ground_truth p.2).total ∧
      (evaluate_model_response ground_truth p.2).total =
        (expected_for ground_truth p.2.topic).length ∧
      (evaluate_model_response ground_truth p.2).details.length =
        (evaluate_model_response ground_truth p.2).total ∧
      0 ≤ (evaluate_model_response ground_truth p.2).score ∧
      (evaluate_model_response ground_truth p.2).score ≤ 10 := by
  have hmap := eval_all_eq_map ground_truth answers hka
  refine ⟨hmap, ?_, ?_⟩
  · rw [hmap]
    simp [List.map_map, Function.comp]
  · intro p _
    have hnd : ((expected_for ground_truth p.2.topic).map Prod.fst).Nodup := by
      cases htop : p.2.topic with
      | none => simp [expected_for]
      | some t =>
        simp only [expected_for, dgetD]
        cases hg : dget t ground_truth with
        | none => simp
        | some ea => exact hgt (t, ea) (dget_mem t ea ground_truth hg)
    refine ⟨emr_correct_le_total _ _, emr_total _ _, ?_, emr_score_nonneg _ _,
      emr_score_le_ten _ _⟩
    rw [emr_details _ _ hnd, emr_total]
    simp

/-- Witness for C10: two models, one with a matching topic and one with an
unknown topic, evaluate to exactly one result each, in input order. -/
theorem evaluate_all_invariants_witness :
    (([("m1", md_scenario), ("m2", md_unknown_topic)] : Dict ModelData).map
      Prod.fst).Nodup ∧
    evaluate_all_models [("m1", md_scenario), ("m2", md_unknown_topic)] gt_scenario =
      [("m1", evaluate_model_response gt_scenario md_scenario),
       ("m2", evaluate_model_response gt_scenario md_unknown_topic)] := by
  refine ⟨by decide, ?_⟩
  have h := (evaluate_all_invariants [("m1", md_scenario), ("m2", md_unknown_topic)]
    gt_scenario (by decide) (by decide)).1
  rw [h]
  rfl

end LogIA
